import Mathlib

/-!
Shallow embedding of `src/weather.py` (a CLI weather client) and proofs
about its formatting pipeline, query builder, decoder normalization and
error classification.

Python floats are modelled by exact rationals (`ℚ`): every arithmetic
step of the source (`%`, `int`, `*`, `/`) is mirrored exactly over ℚ, and
the format specifiers `:.0f`, `:02.0f`, `:.1f` are mirrored by
round-half-to-even rendering, which is what CPython's float formatting
performs. All concrete inputs appearing below are far from rounding
boundaries, so the ℚ model and the binary-float execution produce the
same strings on them.
-/

namespace Weather

/-- Python `n:02` / `{m:02.0f}` zero padding of a natural number to width 2. -/
def pad2 (n : ℕ) : String := if n < 10 then "0" ++ toString n else toString n

/-- Floor of a rational, written so that the kernel can evaluate it
(`Int.floor` is irreducible); equal to `⌊x⌋` by `qfloor_eq`. -/
def qfloor (x : ℚ) : ℤ := x.num / x.den

/-- Round to the nearest integer, ties to even: the rounding CPython's
`format(x, '.0f')` family applies. -/
def roundHalfEven (x : ℚ) : ℤ :=
  if x - qfloor x < 1/2 then qfloor x
  else if 1/2 < x - qfloor x then qfloor x + 1
  else if 2 ∣ qfloor x then qfloor x else qfloor x + 1

/-- Python `x % 1` on a float: the fractional part, always in `[0, 1)`,
with the sign of the (positive) divisor. -/
def pyMod1 (x : ℚ) : ℚ := x - qfloor x

/-- Python `int(x)` on a float: truncation toward zero. -/
def pyInt (x : ℚ) : ℤ := if 0 ≤ x then qfloor x else -qfloor (-x)

/-- Python `{x:.0f}`: round half to even, no decimal point. -/
def fmtF0 (x : ℚ) : String :=
  if x < 0 then "-" ++ toString (roundHalfEven (-x)) else toString (roundHalfEven x)

/-- Python `{x:.1f}` for nonnegative `x`: one digit after the point,
round half to even. -/
def fmtF1nonneg (x : ℚ) : String :=
  let n : ℤ := roundHalfEven (x * 10)
  toString (n / 10) ++ "." ++ toString (n % 10)

/-- Python `{x:.1f}`: sign, then the nonnegative rendering. -/
def fmtF1 (x : ℚ) : String :=
  if x < 0 then "-" ++ fmtF1nonneg (-x) else fmtF1nonneg x

/-- Digits of the fractional part `r ∈ [0,1)` in decimal, stopping when the
remainder is zero or the fuel runs out (models `repr` of a float whose
value is an exact short decimal). -/
def fracDigits : ℚ → ℕ → String
  | _, 0 => ""
  | r, fuel + 1 =>
    let d : ℤ := qfloor (r * 10)
    let r' : ℚ := r * 10 - d
    toString d ++ (if r' = 0 then "" else fracDigits r' fuel)

/-- Python `f"{x}"` (i.e. `repr`) of a nonnegative float holding an exact
short decimal value: integer part, a point, then the fractional digits
(a single `0` when the value is whole). -/
def pyReprNonneg (x : ℚ) : String :=
  let ip : ℤ := qfloor x
  let fp : ℚ := x - ip
  toString ip ++ "." ++ (if fp = 0 then "0" else fracDigits fp 17)

/-- Python `f"{x}"` (i.e. `repr`) of a float holding an exact short
decimal value. -/
def pyRepr (x : ℚ) : String :=
  if x < 0 then "-" ++ pyReprNonneg (-x) else pyReprNonneg x

/-- Embeds lines 128-130 of `long_str` in src/weather.py: the degree and
minute part `f"{abs(longitude):.0f}°{minutes:02.0f}'"` where
`minutes = longitude % 1 * 60` and `longitude = int(longitude)`. -/
def long_deg_min (longitude : ℚ) : String :=
  toString (pyInt longitude).natAbs ++ "°" ++
    pad2 (roundHalfEven (pyMod1 longitude * 60)).toNat ++ "'"

/-- Embeds `long_str` (src/weather.py lines 124-131): degree-minute part
followed by `'E' if longitude > 0 else 'W'` on the truncated value. -/
def long_str (longitude : ℚ) : String :=
  long_deg_min longitude ++ (if 0 < pyInt longitude then "E" else "W")

/-- Embeds lines 138-140 of `lat_str` in src/weather.py: the degree and
minute part, as in `long_deg_min`. -/
def lat_deg_min (latitude : ℚ) : String :=
  toString (pyInt latitude).natAbs ++ "°" ++
    pad2 (roundHalfEven (pyMod1 latitude * 60)).toNat ++ "'"

/-- Embeds `lat_str` (src/weather.py lines 134-141): degree-minute part
followed by `'N' if latitude > 0 else 'S'` on the truncated value. -/
def lat_str (latitude : ℚ) : String :=
  lat_deg_min latitude ++ (if 0 < pyInt latitude then "N" else "S")

/-- Embeds `speed_str` (src/weather.py lines 144-150): metric multiplies
by 3.6 and renders `{speed:.1f} km/h`; otherwise the raw value is
rendered by `repr` with suffix ` mph`, with no unit conversion. -/
def speed_str (speed : ℚ) (metric : Bool) : String :=
  if metric then fmtF1 (speed * (18/5)) ++ " km/h"
  else pyRepr speed ++ " mph"

/-- Embeds `direction_str` (src/weather.py lines 153-188): a chain of
strict upper-bound comparisons at 11.25, 33.75, ..., 348.75. -/
def direction_str (degrees : ℚ) : String :=
  if degrees < 45/4 then "N"
  else if degrees < 135/4 then "NNE"
  else if degrees < 225/4 then "NE"
  else if degrees < 315/4 then "ENE"
  else if degrees < 405/4 then "E"
  else if degrees < 495/4 then "ESE"
  else if degrees < 585/4 then "SE"
  else if degrees < 675/4 then "SSE"
  else if degrees < 765/4 then "S"
  else if degrees < 855/4 then "SSW"
  else if degrees < 945/4 then "SW"
  else if degrees < 1035/4 then "WSW"
  else if degrees < 1125/4 then "W"
  else if degrees < 1215/4 then "WNW"
  else if degrees < 1305/4 then "NW"
  else if degrees < 1395/4 then "NNW"
  else "N"

/-- The sixteen compass labels in sector order, starting due north. -/
def COMPASS_LABELS : List String :=
  ["N", "NNE", "NE", "ENE", "E", "ESE", "SE", "SSE",
   "S", "SSW", "SW", "WSW", "W", "WNW", "NW", "NNW"]

/-- Spec-side direction formatter, written from the spec's words rather
than the source: 22.5°-wide sectors centered on each label, boundaries at
11.25° + 22.5°·k with a boundary belonging to the higher sector, values
at or above 348.75° wrapping back to north. The sector index is computed
arithmetically, to be compared with the source's comparison chain. -/
def spec_compass (d : ℚ) : String :=
  COMPASS_LABELS.getD ((qfloor ((d + 45/4) / (45/2))).toNat % 16) "N"

/-- Hour of day, 0-23, of a timestamp as read by
`datetime.fromtimestamp` on a rendering host at UTC offset zero
(floor division, as Python's divmod). -/
def tsHour (t : ℤ) : ℤ := (Int.fdiv t 3600).emod 24

/-- Minute of hour, 0-59, of a timestamp on the same host model. -/
def tsMinute (t : ℤ) : ℤ := (Int.fdiv t 60).emod 60

/-- Embeds lines 206-209 of `time12hr` in src/weather.py: first
`if hour > 12: hour -= 12`, then `if hour == 0: hour = 12`. -/
def code_hour12 (hour : ℤ) : ℤ :=
  let h := if 12 < hour then hour - 12 else hour
  if h = 0 then 12 else h

/-- Spec-side 12-hour display rule, written from the spec's words: hours
0 and 12 both display as 12, hours 13-23 subtract 12, others unchanged. -/
def spec_hour12 (hour : ℤ) : ℤ :=
  if hour = 0 ∨ hour = 12 then 12 else if 13 ≤ hour then hour - 12 else hour

/-- Embeds `time12hr` (src/weather.py lines 201-210): 12-hour clock with
`{minute:02}` zero padding and no AM/PM suffix. -/
def time12hr (timestamp : ℤ) : String :=
  toString (code_hour12 (tsHour timestamp)) ++ ":" ++
    pad2 (tsMinute timestamp).toNat

/-- Module constant `BASE_URL` (src/weather.py line 10). -/
def BASE_URL : String := "http://api.openweathermap.org/data/2.5/weather"

/-- UTF-8 bytes of a character's code point. -/
def utf8Bytes (c : Char) : List ℕ :=
  let n := c.toNat
  if n < 128 then [n]
  else if n < 2048 then [192 + n / 64, 128 + n % 64]
  else if n < 65536 then [224 + n / 4096, 128 + n / 64 % 64, 128 + n % 64]
  else [240 + n / 262144, 128 + n / 4096 % 64, 128 + n / 64 % 64, 128 + n % 64]

/-- The sixteen uppercase hexadecimal digit strings. -/
def HEX_DIGITS : List String :=
  ["0", "1", "2", "3", "4", "5", "6", "7",
   "8", "9", "A", "B", "C", "D", "E", "F"]

/-- Percent-encoding `%XX` of one byte, uppercase hex. -/
def pctByte (b : ℕ) : String :=
  "%" ++ HEX_DIGITS.getD (b / 16) "0" ++ HEX_DIGITS.getD (b % 16) "0"

/-- Characters `urllib.parse.quote_plus` never encodes: ASCII letters,
digits, and `_.-~`. -/
def quoteSafe (c : Char) : Bool :=
  c.isAlphanum || c = '_' || c = '.' || c = '-' || c = '~'

/-- Embeds `urllib.parse.quote_plus`: spaces become `+`, always-safe
characters pass through, every other character is UTF-8 percent-encoded. -/
def quote_plus (s : String) : String :=
  String.join (s.toList.map fun c =>
    if c = ' ' then "+"
    else if quoteSafe c then String.singleton c
    else String.join ((utf8Bytes c).map pctByte))

/-- Embeds `build_weather_query` (src/weather.py lines 41-47). The source
reads the credential via `_get_api_key()` (an excluded configuration
collaborator); here its result is the explicit `api_key` argument. -/
def build_weather_query (city_input : List String) (fahrenheit : Bool)
    (api_key : String) : String :=
  let city_name := String.intercalate " " city_input
  let encoded_city_name := quote_plus city_name
  let units := if fahrenheit then "imperial" else "metric"
  BASE_URL ++ "?q=" ++ encoded_city_name ++ "&units=" ++ units ++
    "&appid=" ++ api_key

/-- The decoded weather record: the fields of the provider response that
`display` reads (src/weather.py lines 79-109). The optional gust field is
an `Option`; every other field is required. -/
structure WeatherRecord where
  name : String
  country : String
  description : String
  temp : ℚ
  temp_min : ℚ
  temp_max : ℚ
  feels_like : ℚ
  humidity : ℤ
  pressure : ℤ
  clouds : ℤ
  visibility : ℚ
  wind_speed : ℚ
  wind_deg : ℚ
  wind_gust : Option ℚ
  lat : ℚ
  lon : ℚ
  sunrise : ℤ
  sunset : ℤ
  timezone : ℤ
deriving DecidableEq

/-- Embeds lines 68-69 of `get_weather_data` in src/weather.py: a record
whose country is `"PS"` has it rewritten to `"IL"`; otherwise unchanged. -/
def normalizeCountry (r : WeatherRecord) : WeatherRecord :=
  if r.country = "PS" then { r with country := "IL" } else r

/-- Outcome of the HTTP GET performed by `request.urlopen`: a body, an
`HTTPError` with a status code and a reason, or a `URLError` with a
reason (the transport boundary of src/weather.py lines 52-63). -/
inductive FetchResult where
  | success (body : String)
  | httpError (code : ℤ) (reason : String)
  | urlError (reason : String)
deriving DecidableEq

/-- Embeds `get_weather_data` (src/weather.py lines 50-70). `sys.exit`
with a message becomes `Except.error` of that message (one diagnostic,
non-zero exit, no partial report); `json.loads` is the standard-library
JSON decoder, abstracted as the `json_loads` argument whose `none` is a
`JSONDecodeError`. On success the decoded record is returned after the
country normalization of lines 68-69. -/
def get_weather_data (json_loads : String → Option WeatherRecord)
    (r : FetchResult) : Except String WeatherRecord :=
  match r with
  | .httpError code reason =>
    if code = 401 then .error "Access denied. Check API key."
    else if code = 404 then .error "No weather data for this city."
    else .error reason
  | .urlError reason => .error reason
  | .success body =>
    match json_loads body with
    | none => .error "Couldn't read server response."
    | some json_data => .ok (normalizeCountry json_data)

/-- Embeds the gust computation of `display` (src/weather.py lines 95
and 98): `raw_wind_gust = weather_data['wind'].get('gust')`, then
`speed_str(raw_wind_gust, metric) if raw_wind_gust else None`, where a
missing field and a zero value are both falsy. -/
def gust_speed (raw_wind_gust : Option ℚ) (metric : Bool) : Option String :=
  match raw_wind_gust with
  | some g => if g ≠ 0 then some (speed_str g metric) else none
  | none => none

/-- Embeds the wind line of `display` (src/weather.py lines 116-117):
`print(f"Wind: {wind_speed} {direction}", f"Gusts: {gust_speed}" if
gust_speed else "")`, with `print`'s single-space separator. -/
def wind_line (raw_wind_speed : ℚ) (wind_degrees : ℚ)
    (raw_wind_gust : Option ℚ) (metric : Bool) : String :=
  "Wind: " ++ speed_str raw_wind_speed metric ++ " " ++
    direction_str wind_degrees ++ " " ++
    (match gust_speed raw_wind_gust metric with
     | some g => "Gusts: " ++ g
     | none => "")

/-- Embeds the visibility fragment of the last line of `display`
(src/weather.py line 121): `f"Visibility: {visibility/1000:.0f}km"`. -/
def visibility_str (visibility : ℚ) : String :=
  "Visibility: " ++ fmtF0 (visibility / 1000) ++ "km"

/-- A concrete decoded record used to instantiate hypotheses. -/
def psRecord : WeatherRecord where
  name := "Jerusalem"
  country := "PS"
  description := "clear sky"
  temp := 25
  temp_min := 20
  temp_max := 30
  feels_like := 24
  humidity := 40
  pressure := 1013
  clouds := 0
  visibility := 10000
  wind_speed := 3
  wind_deg := 90
  wind_gust := none
  lat := 3178/100
  lon := 3522/100
  sunrise := 1700000000
  sunset := 1700040000
  timezone := 7200

/-! Helper lemmas. -/

/-- The computable floor agrees with Mathlib's floor. -/
theorem qfloor_eq (x : ℚ) : qfloor x = ⌊x⌋ := Rat.floor_def.symm

/-- The truncated integer part is positive exactly when the value is at
least one. -/
theorem pyInt_pos_iff (x : ℚ) : 0 < pyInt x ↔ 1 ≤ x := by
  unfold pyInt
  simp only [qfloor_eq]
  split_ifs with h
  · constructor
    · intro hp
      have h1 : (1 : ℤ) ≤ ⌊x⌋ := hp
      have h2 : ((1 : ℤ) : ℚ) ≤ x := Int.le_floor.mp h1
      exact_mod_cast h2
    · intro h1
      have : (1 : ℤ) ≤ ⌊x⌋ := Int.le_floor.mpr (by exact_mod_cast h1)
      omega
  · push_neg at h
    constructor
    · intro hp
      exfalso
      have hx : (0 : ℚ) ≤ -x := by linarith
      have : 0 ≤ ⌊-x⌋ := Int.floor_nonneg.mpr hx
      omega
    · intro h1
      exfalso
      linarith

/-- Round-half-to-even lands within half of the input. -/
theorem roundHalfEven_nearest (x : ℚ) : |(roundHalfEven x : ℚ) - x| ≤ 1/2 := by
  have h1 : (⌊x⌋ : ℚ) ≤ x := Int.floor_le x
  have h2 : x < ⌊x⌋ + 1 := Int.lt_floor_add_one x
  unfold roundHalfEven
  simp only [qfloor_eq]
  split_ifs with ha hb hc
  · rw [abs_le]; constructor <;> linarith
  · rw [abs_le]; constructor <;> push_cast <;> linarith
  · have he : x - ⌊x⌋ = 1/2 := le_antisymm (not_lt.mp hb) (not_lt.mp ha)
    rw [abs_le]; constructor <;> linarith
  · have he : x - ⌊x⌋ = 1/2 := le_antisymm (not_lt.mp hb) (not_lt.mp ha)
    rw [abs_le]; constructor <;> push_cast <;> linarith

/-- Evaluation of the spec-side compass formatter on the k-th sector. -/
theorem spec_compass_eval (d : ℚ) (k : ℕ)
    (hlo : 45/2 * k - 45/4 ≤ d) (hhi : d < 45/2 * k + 45/4) :
    spec_compass d = COMPASS_LABELS.getD (k % 16) "N" := by
  have hfloor : ⌊(d + 45/4) / (45/2)⌋ = (k : ℤ) := by
    rw [Int.floor_eq_iff]
    constructor
    · rw [le_div_iff₀ (by norm_num : (0:ℚ) < 45/2)]
      push_cast
      linarith
    · rw [div_lt_iff₀ (by norm_num : (0:ℚ) < 45/2)]
      push_cast
      linarith
  unfold spec_compass
  rw [qfloor_eq, hfloor]
  simp

/-- The source's sequential 12-hour adjustment agrees with the spec's
case description on every hour value. -/
theorem code_hour12_eq_spec (h : ℤ) : code_hour12 h = spec_hour12 h := by
  simp only [code_hour12, spec_hour12]
  split_ifs <;> omega

/-! Claim theorems. -/

/-- C1, counterexample: none of the spec's three coordinate examples is
the string the source produces; at latitude 40.7128 the minutes round to
43, at -40.7128 Python's modulo yields the complementary fraction, and at
longitude -74.0060 the minutes render as 60. -/
theorem lat_long_examples_counterexample :
    ¬(lat_str (407128/10000) = "40°42'N" ∧ lat_str (-(407128/10000)) = "40°42'S" ∧
      long_str (-(740060/10000)) = "74°00'W") := by with_unfolding_all decide

/-- C1, amended: the latitude formatter applied to 40.7128 returns
"40°43'N" (minutes rounded to nearest) and applied to -40.7128 returns
"40°17'S" (Python's modulo gives the complement of the fractional part
for negative inputs), and the longitude formatter applied to -74.0060
returns "74°60'W" (59.64 minutes rounds up to 60). -/
theorem lat_long_examples_amended :
    lat_str (407128/10000) = "40°43'N" ∧ lat_str (-(407128/10000)) = "40°17'S" ∧
    long_str (-(740060/10000)) = "74°60'W" := by with_unfolding_all decide

/-- C2, counterexample: zero is rendered with S (resp. W), not N (resp.
E), and the positive value 1/2 is also rendered with S, because the
source tests the sign of the truncated integer part. -/
theorem direction_letter_counterexample :
    lat_str 0 = "0°00'S" ∧ lat_str (1/2) = "0°30'S" ∧
    long_str 0 = "0°00'W" := by with_unfolding_all decide

/-- C2, amended: the latitude formatter's direction letter is N exactly
when the degree value is at least 1 (so that its truncation toward zero
is positive), and S otherwise — including 0 and every positive value
below 1; the longitude formatter follows the identical pattern with E
and W. -/
theorem direction_letter_amended (x : ℚ) :
    (1 ≤ x → lat_str x = lat_deg_min x ++ "N") ∧
    (x < 1 → lat_str x = lat_deg_min x ++ "S") ∧
    (1 ≤ x → long_str x = long_deg_min x ++ "E") ∧
    (x < 1 → long_str x = long_deg_min x ++ "W") := by
  refine ⟨fun h => ?_, fun h => ?_, fun h => ?_, fun h => ?_⟩
  · unfold lat_str
    rw [if_pos ((pyInt_pos_iff x).mpr h)]
  · unfold lat_str
    rw [if_neg fun hp => not_le.mpr h ((pyInt_pos_iff x).mp hp)]
  · unfold long_str
    rw [if_pos ((pyInt_pos_iff x).mpr h)]
  · unfold long_str
    rw [if_neg fun hp => not_le.mpr h ((pyInt_pos_iff x).mp hp)]

/-- C2, witness: the amended claim instantiated at 2 (letter N). -/
theorem direction_letter_amended_witness :
    lat_str 2 = lat_deg_min 2 ++ "N" :=
  (direction_letter_amended 2).1 (by norm_num)

set_option maxHeartbeats 1600000 in
/-- C3: for every degree value in [0, 360] the source's direction
formatter agrees with the spec's arithmetic sector rule (22.5°-wide
half-open sectors with boundaries at 11.25° + 22.5°·k, a boundary
belonging to the higher sector), every value at or above 348.75° or
below 11.25° maps to N, and in particular 0 maps to N, 90 to E, 359 to
N and 11.25 (written 45/4) to NNE. -/
theorem direction_str_claim (d : ℚ) (h0 : 0 ≤ d) (h360 : d ≤ 360) :
    direction_str d = spec_compass d ∧
    ((1395/4 ≤ d ∨ d < 45/4) → direction_str d = "N") ∧
    direction_str 0 = "N" ∧ direction_str 90 = "E" ∧
    direction_str 359 = "N" ∧ direction_str (45/4) = "NNE" := by
  have main : direction_str d = spec_compass d := by
    by_cases c1 : d < 45/4
    · have e : direction_str d = "N" := by
        unfold direction_str
        rw [if_pos c1]
      rw [e, spec_compass_eval d 0 (by push_cast; linarith) (by push_cast; linarith)]
      rfl
    by_cases c2 : d < 135/4
    · have e : direction_str d = "NNE" := by
        unfold direction_str
        rw [if_neg c1, if_pos c2]
      rw [e, spec_compass_eval d 1 (by push_cast; linarith) (by push_cast; linarith)]
      rfl
    by_cases c3 : d < 225/4
    · have e : direction_str d = "NE" := by
        unfold direction_str
        rw [if_neg c1, if_neg c2, if_pos c3]
      rw [e, spec_compass_eval d 2 (by push_cast; linarith) (by push_cast; linarith)]
      rfl
    by_cases c4 : d < 315/4
    · have e : direction_str d = "ENE" := by
        unfold direction_str
        rw [if_neg c1, if_neg c2, if_neg c3, if_pos c4]
      rw [e, spec_compass_eval d 3 (by push_cast; linarith) (by push_cast; linarith)]
      rfl
    by_cases c5 : d < 405/4
    · have e : direction_str d = "E" := by
        unfold direction_str
        rw [if_neg c1, if_neg c2, if_neg c3, if_neg c4, if_pos c5]
      rw [e, spec_compass_eval d 4 (by push_cast; linarith) (by push_cast; linarith)]
      rfl
    by_cases c6 : d < 495/4
    · have e : direction_str d = "ESE" := by
        unfold direction_str
        rw [if_neg c1, if_neg c2, if_neg c3, if_neg c4, if_neg c5, if_pos c6]
      rw [e, spec_compass_eval d 5 (by push_cast; linarith) (by push_cast; linarith)]
      rfl
    by_cases c7 : d < 585/4
    · have e : direction_str d = "SE" := by
        unfold direction_str
        rw [if_neg c1, if_neg c2, if_neg c3, if_neg c4, if_neg c5, if_neg c6, if_pos c7]
      rw [e, spec_compass_eval d 6 (by push_cast; linarith) (by push_cast; linarith)]
      rfl
    by_cases c8 : d < 675/4
    · have e : direction_str d = "SSE" := by
        unfold direction_str
        rw [if_neg c1, if_neg c2, if_neg c3, if_neg c4, if_neg c5, if_neg c6, if_neg c7, if_pos c8]
      rw [e, spec_compass_eval d 7 (by push_cast; linarith) (by push_cast; linarith)]
      rfl
    by_cases c9 : d < 765/4
    · have e : direction_str d = "S" := by
        unfold direction_str
        rw [if_neg c1, if_neg c2, if_neg c3, if_neg c4, if_neg c5, if_neg c6, if_neg c7, if_neg c8, if_pos c9]
      rw [e, spec_compass_eval d 8 (by push_cast; linarith) (by push_cast; linarith)]
      rfl
    by_cases c10 : d < 855/4
    · have e : direction_str d = "SSW" := by
        unfold direction_str
        rw [if_neg c1, if_neg c2, if_neg c3, if_neg c4, if_neg c5, if_neg c6, if_neg c7, if_neg c8, if_neg c9, if_pos c10]
      rw [e, spec_compass_eval d 9 (by push_cast; linarith) (by push_cast; linarith)]
      rfl
    by_cases c11 : d < 945/4
    · have e : direction_str d = "SW" := by
        unfold direction_str
        rw [if_neg c1, if_neg c2, if_neg c3, if_neg c4, if_neg c5, if_neg c6, if_neg c7, if_neg c8, if_neg c9, if_neg c10, if_pos c11]
      rw [e, spec_compass_eval d 10 (by push_cast; linarith) (by push_cast; linarith)]
      rfl
    by_cases c12 : d < 1035/4
    · have e : direction_str d = "WSW" := by
        unfold direction_str
        rw [if_neg c1, if_neg c2, if_neg c3, if_neg c4, if_neg c5, if_neg c6, if_neg c7, if_neg c8, if_neg c9, if_neg c10, if_neg c11, if_pos c12]
      rw [e, spec_compass_eval d 11 (by push_cast; linarith) (by push_cast; linarith)]
      rfl
    by_cases c13 : d < 1125/4
    · have e : direction_str d = "W" := by
        unfold direction_str
        rw [if_neg c1, if_neg c2, if_neg c3, if_neg c4, if_neg c5, if_neg c6, if_neg c7, if_neg c8, if_neg c9, if_neg c10, if_neg c11, if_neg c12, if_pos c13]
      rw [e, spec_compass_eval d 12 (by push_cast; linarith) (by push_cast; linarith)]
      rfl
    by_cases c14 : d < 1215/4
    · have e : direction_str d = "WNW" := by
        unfold direction_str
        rw [if_neg c1, if_neg c2, if_neg c3, if_neg c4, if_neg c5, if_neg c6, if_neg c7, if_neg c8, if_neg c9, if_neg c10, if_neg c11, if_neg c12, if_neg c13, if_pos c14]
      rw [e, spec_compass_eval d 13 (by push_cast; linarith) (by push_cast; linarith)]
      rfl
    by_cases c15 : d < 1305/4
    · have e : direction_str d = "NW" := by
        unfold direction_str
        rw [if_neg c1, if_neg c2, if_neg c3, if_neg c4, if_neg c5, if_neg c6, if_neg c7, if_neg c8, if_neg c9, if_neg c10, if_neg c11, if_neg c12, if_neg c13, if_neg c14, if_pos c15]
      rw [e, spec_compass_eval d 14 (by push_cast; linarith) (by push_cast; linarith)]
      rfl
    by_cases c16 : d < 1395/4
    · have e : direction_str d = "NNW" := by
        unfold direction_str
        rw [if_neg c1, if_neg c2, if_neg c3, if_neg c4, if_neg c5, if_neg c6, if_neg c7, if_neg c8, if_neg c9, if_neg c10, if_neg c11, if_neg c12, if_neg c13, if_neg c14, if_neg c15, if_pos c16]
      rw [e, spec_compass_eval d 15 (by push_cast; linarith) (by push_cast; linarith)]
      rfl
    · have e : direction_str d = "N" := by
        unfold direction_str
        rw [if_neg c1, if_neg c2, if_neg c3, if_neg c4, if_neg c5, if_neg c6, if_neg c7, if_neg c8, if_neg c9, if_neg c10, if_neg c11, if_neg c12, if_neg c13, if_neg c14, if_neg c15, if_neg c16]
      rw [e, spec_compass_eval d 16 (by push_cast; linarith) (by push_cast; linarith)]
      rfl
  refine ⟨main, ?_, by with_unfolding_all decide, by with_unfolding_all decide,
    by with_unfolding_all decide, by with_unfolding_all decide⟩
  rintro (hge | hlt)
  · rw [main, spec_compass_eval d 16 (by push_cast; linarith) (by push_cast; linarith)]
    rfl
  · rw [main, spec_compass_eval d 0 (by push_cast; linarith) (by push_cast; linarith)]
    rfl

/-- C3, witness: the claim instantiated at 90 degrees. -/
theorem direction_str_claim_witness :
    direction_str 90 = spec_compass 90 :=
  (direction_str_claim 90 (by norm_num) (by norm_num)).1

/-- C4: with the metric flag the speed formatter renders speed times 3.6
(written 18/5) to one decimal place with suffix km/h (the displayed
tenths value is the nearest tenth of the converted speed), and without
it the raw value is rendered unconverted with suffix mph; in particular
5.0 m/s renders as "18.0 km/h" under metric, and as "5.0 mph" with no
m/s-to-mph arithmetic otherwise. -/
theorem speed_str_claim (s : ℚ) :
    speed_str s true = fmtF1 (18/5 * s) ++ " km/h" ∧
    speed_str s false = pyRepr s ++ " mph" ∧
    |(roundHalfEven (18/5 * s * 10) : ℚ) / 10 - 18/5 * s| ≤ 1/20 ∧
    speed_str 5 true = "18.0 km/h" ∧ speed_str 5 false = "5.0 mph" := by
  refine ⟨?_, rfl, ?_, by with_unfolding_all decide, by with_unfolding_all decide⟩
  · show fmtF1 (s * (18/5)) ++ " km/h" = fmtF1 (18/5 * s) ++ " km/h"
    rw [mul_comm]
  · have h := roundHalfEven_nearest (18/5 * s * 10)
    rw [abs_le] at h ⊢
    constructor <;> linarith [h.1, h.2]

/-- C5: the 12-hour formatter agrees on every timestamp with the spec's
rule (hours 0 and 12 display as 12, hours 13-23 subtract 12, hours 1-11
unchanged, minutes zero-padded to two digits, no AM/PM suffix); in
particular hour 0 renders "12:00" and 13:05 renders "1:05". -/
theorem time12hr_claim (t : ℤ) :
    time12hr t = toString (spec_hour12 (tsHour t)) ++ ":" ++
      pad2 (tsMinute t).toNat ∧
    time12hr 0 = "12:00" ∧ time12hr 47100 = "1:05" := by
  refine ⟨?_, by with_unfolding_all decide, by with_unfolding_all decide⟩
  unfold time12hr
  rw [code_hour12_eq_spec]

/-- C6: decoding rewrites country "PS" to "IL" unconditionally (the
normalization takes no unit preference), leaves every other country code
unchanged, and is idempotent. -/
theorem normalizeCountry_claim (r : WeatherRecord) :
    (r.country = "PS" → normalizeCountry r = { r with country := "IL" }) ∧
    (r.country ≠ "PS" → normalizeCountry r = r) ∧
    normalizeCountry (normalizeCountry r) = normalizeCountry r := by
  refine ⟨fun h => ?_, fun h => ?_, ?_⟩
  · unfold normalizeCountry
    rw [if_pos h]
  · unfold normalizeCountry
    rw [if_neg h]
  · by_cases h : r.country = "PS"
    · simp [normalizeCountry, h]
    · simp [normalizeCountry, h]

/-- C6, witness: the claim instantiated at a concrete record with
country "PS". -/
theorem normalizeCountry_claim_witness :
    normalizeCountry psRecord = { psRecord with country := "IL" } :=
  (normalizeCountry_claim psRecord).1 rfl

/-- C7: for every non-empty word list, flag and credential, the query is
the fixed base endpoint followed by exactly the parameters q (the words
joined by single spaces then percent-encoded), units ("imperial" when
the flag is set, else "metric") and appid; in particular New York yields
q=New+York under metric units. -/
theorem build_weather_query_claim (city : List String) (h : city ≠ [])
    (imperial : Bool) (api_key : String) :
    build_weather_query city imperial api_key =
      BASE_URL ++ "?q=" ++ quote_plus (String.intercalate " " city) ++
        "&units=" ++ (if imperial then "imperial" else "metric") ++
        "&appid=" ++ api_key ∧
    build_weather_query ["New", "York"] false "KEY" =
      "http://api.openweathermap.org/data/2.5/weather?q=New+York&units=metric&appid=KEY" ∧
    quote_plus (String.intercalate " " ["New", "York"]) = "New+York" :=
  ⟨rfl, by with_unfolding_all decide, by with_unfolding_all decide⟩

/-- C7, witness: the claim instantiated at the two-word city New York. -/
theorem build_weather_query_claim_witness :
    build_weather_query ["New", "York"] false "KEY" =
      "http://api.openweathermap.org/data/2.5/weather?q=New+York&units=metric&appid=KEY" :=
  (build_weather_query_claim ["New", "York"] (by with_unfolding_all decide)
    false "KEY").2.1

/-- C8: the fetch-and-decode step yields exactly one diagnostic and no
record on each failure —  HTTP 401 maps to "Access denied. Check API
key.", HTTP 404 to "No weather data for this city.", any other HTTP or
URL transport failure to the transport's reason string, and an
unparseable body to "Couldn't read server response." — while a parseable
body on success yields the normalized record and none of the error
branches. -/
theorem get_weather_data_claim (json_loads : String → Option WeatherRecord)
    (body reason : String) (code : ℤ) :
    get_weather_data json_loads (.httpError 401 reason) =
      .error "Access denied. Check API key." ∧
    get_weather_data json_loads (.httpError 404 reason) =
      .error "No weather data for this city." ∧
    (code ≠ 401 → code ≠ 404 →
      get_weather_data json_loads (.httpError code reason) = .error reason) ∧
    get_weather_data json_loads (.urlError reason) = .error reason ∧
    (json_loads body = none →
      get_weather_data json_loads (.success body) =
        .error "Couldn't read server response.") ∧
    (∀ rec, json_loads body = some rec →
      get_weather_data json_loads (.success body) =
        .ok (normalizeCountry rec)) := by
  refine ⟨rfl, rfl, fun h1 h2 => ?_, rfl, fun h => ?_, fun rec h => ?_⟩
  · simp only [get_weather_data]
    rw [if_neg h1, if_neg h2]
  · simp only [get_weather_data, h]
  · simp only [get_weather_data, h]

/-- C8, witness: a body the decoder rejects produces the decode
diagnostic. -/
theorem get_weather_data_claim_witness :
    get_weather_data (fun _ => none) (.success "x") =
      .error "Couldn't read server response." :=
  (get_weather_data_claim (fun _ => none) "x" "r" 0).2.2.2.2.1 rfl

/-- C9, counterexample: at visibility 9500 meters the display reads
"Visibility: 10km", not the truncated "Visibility: 9km" the claim
requires —  the format specifier rounds to nearest rather than
truncating. -/
theorem visibility_truncation_counterexample :
    visibility_str 9500 = "Visibility: 10km" ∧
    visibility_str 9500 ≠ "Visibility: 9km" := by with_unfolding_all decide

/-- C9, amended: the Presenter displays visibility in kilometers
obtained by dividing the meters field by 1000 and rounding to the
nearest whole number (ties to even, so the displayed count is within
half a kilometer of the quotient); 9500 meters displays as 10 km. -/
theorem visibility_rounded_amended (v : ℚ) (h : 0 ≤ v) :
    visibility_str v =
      "Visibility: " ++ toString (roundHalfEven (v / 1000)) ++ "km" ∧
    |(roundHalfEven (v / 1000) : ℚ) - v / 1000| ≤ 1/2 ∧
    visibility_str 9500 = "Visibility: 10km" := by
  refine ⟨?_, roundHalfEven_nearest (v / 1000), by with_unfolding_all decide⟩
  unfold visibility_str fmtF0
  rw [if_neg (not_lt.mpr (by linarith : (0:ℚ) ≤ v / 1000))]

/-- C9, witness: the amended claim instantiated at 9500 meters. -/
theorem visibility_rounded_amended_witness :
    visibility_str 9500 =
      "Visibility: " ++ toString (roundHalfEven ((9500:ℚ) / 1000)) ++ "km" :=
  (visibility_rounded_amended 9500 (by norm_num)).1

/-- C10: a present gust field holding 0 renders the wind line exactly as
an absent gust field does —  the Gusts portion is omitted; the displayed
gust is none for a zero value just as for a missing one, because the
source tests the value's truthiness. -/
theorem gust_zero_omitted_claim (ws dg : ℚ) (metric : Bool) :
    wind_line ws dg (some 0) metric = wind_line ws dg none metric ∧
    gust_speed (some 0) metric = none ∧
    gust_speed none metric = none := by
  have h : gust_speed (some 0) metric = none := by
    show (if (0:ℚ) ≠ 0 then some (speed_str 0 metric) else none) = none
    rw [if_neg (by simp)]
  refine ⟨?_, h, rfl⟩
  unfold wind_line
  rw [h]
  rfl

end Weather
